import Mathlib

/-!
Verification of the query-interpretation-and-resolution pipeline of the
SmartMapSearch repository (src/services/mistral.ts and src/App.tsx).

The TypeScript source is shallowly embedded: JS numbers become `ℚ` (or `ℝ`
for the trigonometric ranking code), JSON payloads become the `Json`
inductive, network interactions (the Mistral chat completions, the taginfo
registry lookup, the three Nominatim requests) become fields of an `Oracle`
record supplied as an argument, and a function that can throw returns
`Except Unit`.
-/

set_option linter.unusedVariables false

/-- A latitude/longitude pair, as produced by the schema's `coordinates`
object and as the `userLocation` argument of `searchLocations` /
`parseSearchQuery` in src/services/mistral.ts. -/
structure Coordinates where
  latitude : ℚ
  longitude : ℚ
deriving DecidableEq

/-- The `location` field of `ParsedQuerySchema`: an optional `coordinates`
object and an optional numeric `radius` (`z.number().optional()`). -/
structure LocationIntent where
  coordinates : Option Coordinates
  radius : Option ℚ
deriving DecidableEq

/-- The `filters.temporal` object of `ParsedQuerySchema`. -/
structure TemporalFilters where
  openNow : Option Bool
deriving DecidableEq

/-- The `filters` object of `ParsedQuerySchema`. -/
structure Filters where
  temporal : Option TemporalFilters
deriving DecidableEq

/-- One OSM tag `{key, value}`, as in the `osmTags` array of
`ParsedQuerySchema` and the reply of `mapToOsmTags`. -/
structure OsmTag where
  key : String
  value : String
deriving DecidableEq

/-- `ParsedQuery = z.infer<typeof ParsedQuerySchema>`: the structured intent
produced by `ParsedQuerySchema.parse`.  Optional schema fields become
`Option`; zod strips keys not named in the schema, so a parsed object has
exactly these properties. -/
structure ParsedQuery where
  searchTerm : String
  location : Option LocationIntent
  filters : Option Filters
  osmTags : Option (List OsmTag)
deriving DecidableEq

/-- The `SearchResult` interface of src/services/mistral.ts (one Nominatim
place).  The tier logic of `searchLocations` inspects only the length of a
result list. -/
structure SearchResult where
  coordinates : ℚ × ℚ
  display_name : String
  osm_type : String
  osm_id : ℤ
deriving DecidableEq

/-- A JSON value, the dynamic data crossing the network boundaries
(`JSON.parse` output of the model replies, taginfo response bodies).
JS `undefined` is represented by the absence of an object key. -/
inductive Json where
  | null : Json
  | bool : Bool → Json
  | num : ℚ → Json
  | str : String → Json
  | arr : List Json → Json
  | obj : List (String × Json) → Json

/-- JS property read `j[k]`, at the sites where it cannot throw.  On an
object the last binding of the key wins (as `JSON.parse` keeps the last
duplicate); on a string, number, boolean or array the properties read by
this code are `undefined` (`none`).  Reading a property of `null` instead
throws a `TypeError` in JS; the embedding never applies `getField` to a
possibly-`null` value where that throw is observable.  Inside
`validateOsmTag` the throw aborts the entry scan and is modelled explicitly
by `jsSomeValueEq`; at the one remaining site that can visit `null` (the
`parsed.location` read of `parseSearchQuery`, when `JSON.parse` returned
`null`) the `TypeError` is caught by the `try` whose `catch` is exactly the
branch the `none` reading also reaches, so the two readings coincide
observably. -/
def Json.getField (j : Json) (k : String) : Option Json :=
  match j with
  | .obj fields => ((fields.filter (fun p => p.1 == k)).getLast?).map (fun p => p.2)
  | _ => none

/-- JS property write `j[k] = v` on an object: overwrite the binding if the
key is present, append it otherwise.  The source only assigns to values it
has just checked to be objects. -/
def Json.setField (j : Json) (k : String) (v : Json) : Json :=
  match j with
  | .obj fields =>
      if fields.any (fun p => p.1 == k) then
        .obj (fields.map (fun p => if p.1 == k then (k, v) else p))
      else
        .obj (fields ++ [(k, v)])
  | _ => j

/-- `z.string()` applied to a present value. -/
def zodStringField : Json → Except Unit String
  | .str s => .ok s
  | _ => .error ()

/-- `z.number()` applied to a present value. -/
def zodNumberField : Json → Except Unit ℚ
  | .num q => .ok q
  | _ => .error ()

/-- `z.boolean()` applied to a present value. -/
def zodBoolField : Json → Except Unit Bool
  | .bool b => .ok b
  | _ => .error ()

/-- `.optional()`: an absent (or `undefined`) field parses to `none`; a
present field must satisfy the inner schema.  `null` is not accepted. -/
def zodOpt {α : Type} (f : Json → Except Unit α) : Option Json → Except Unit (Option α)
  | none => .ok none
  | some v => (f v).map some

/-- A required field: absent (`undefined`) is a schema violation. -/
def zodReq {α : Type} (f : Json → Except Unit α) : Option Json → Except Unit α
  | none => .error ()
  | some v => f v

/-- The `coordinates` object schema: required numeric `latitude` and
`longitude`; anything that is not an object is rejected. -/
def zodCoordinates : Json → Except Unit Coordinates
  | j@(.obj _) => do
      let lat ← zodReq zodNumberField (j.getField "latitude")
      let lon ← zodReq zodNumberField (j.getField "longitude")
      .ok ⟨lat, lon⟩
  | _ => .error ()

/-- The `location` object schema of `ParsedQuerySchema`. -/
def zodLocation : Json → Except Unit LocationIntent
  | j@(.obj _) => do
      let coords ← zodOpt zodCoordinates (j.getField "coordinates")
      let radius ← zodOpt zodNumberField (j.getField "radius")
      .ok ⟨coords, radius⟩
  | _ => .error ()

/-- The `filters.temporal` object schema. -/
def zodTemporal : Json → Except Unit TemporalFilters
  | j@(.obj _) => do
      let openNow ← zodOpt zodBoolField (j.getField "openNow")
      .ok ⟨openNow⟩
  | _ => .error ()

/-- The `filters` object schema. -/
def zodFilters : Json → Except Unit Filters
  | j@(.obj _) => do
      let temporal ← zodOpt zodTemporal (j.getField "temporal")
      .ok ⟨temporal⟩
  | _ => .error ()

/-- One element of the `osmTags` array: required string `key` and `value`. -/
def zodOsmTag : Json → Except Unit OsmTag
  | j@(.obj _) => do
      let key ← zodReq zodStringField (j.getField "key")
      let value ← zodReq zodStringField (j.getField "value")
      .ok ⟨key, value⟩
  | _ => .error ()

/-- `z.array(...)` over the tag element schema: only a JSON array is
accepted, and every element must parse. -/
def zodOsmTagList : Json → Except Unit (List OsmTag)
  | .arr xs => xs.mapM zodOsmTag
  | _ => .error ()

/-- `ParsedQuerySchema.parse` of src/services/mistral.ts: validates a JSON
value against the zod schema, throwing (`.error`) on any violation.  Keys
not named in the schema are stripped, which the result type realizes by
having no other fields. -/
def ParsedQuerySchema.parse : Json → Except Unit ParsedQuery
  | j@(.obj _) => do
      let searchTerm ← zodReq zodStringField (j.getField "searchTerm")
      let location ← zodOpt zodLocation (j.getField "location")
      let filters ← zodOpt zodFilters (j.getField "filters")
      let osmTags ← zodOpt zodOsmTagList (j.getField "osmTags")
      .ok ⟨searchTerm, location, filters, osmTags⟩
  | _ => .error ()

/-- The environment of one `searchLocations` invocation: the outcome of each
network interaction the source can perform.  An `.error` stands for a
rejected promise (network failure, non-ok HTTP status folded in where the
source checks it, or an unparsable body).
  * `analysis`: the main `mistralClient.chat` call of `parseSearchQuery`
    composed with `JSON.parse` of its content;
  * `mapReply`: the `mistralClient.chat` call of `mapToOsmTags` composed
    with `JSON.parse`, at the `{key, value}` level it is used at (a reply
    without usable string fields validates against no registry entry and so
    is dropped exactly like an `.error` reply);
  * `registry`: the taginfo `/tag/values` fetch of `validateOsmTag`,
    parsed response body per queried (key, value);
  * `tier1`: the primary Nominatim request of `searchLocations` (built from
    the parsed intent), result list of its parsed body;
  * `tier2`: the plain-term Nominatim request with `limit=10`;
  * `tier3`: the plain-term Nominatim request with `limit=3` issued from the
    `catch` block. -/
structure Oracle where
  analysis : Except Unit Json
  mapReply : Except Unit OsmTag
  registry : String → String → Except Unit Json
  tier1 : Except Unit (List SearchResult)
  tier2 : Except Unit (List SearchResult)
  tier3 : Except Unit (List SearchResult)

/-- JS strict equality `entryValue === value` for a string `value`: true iff
the (dynamically typed) entry field is that same string; `undefined` or any
non-string compares false. -/
def jsStrictEqStr : Option Json → String → Bool
  | some (.str s), v => s == v
  | _, _ => false

/-- Whether the JS property read `entry.value` throws: it does exactly on
`null` (`undefined` cannot occur in a `JSON.parse`d array; every other
value carries properties or yields `undefined`). -/
def jsValueReadThrows : Json → Bool
  | .null => true
  | _ => false

/-- The scan `entries.some(entry => entry.value === value)` of
`validateOsmTag`, with its JS error behaviour: elements are visited in
order, the first match stops the scan with `true`, and visiting a `null`
element makes the callback's `entry.value` read throw a `TypeError`
(`.error`), aborting the scan. -/
def jsSomeValueEq : List Json → String → Except Unit Bool
  | [], _ => .ok false
  | entry :: rest, value =>
      if jsValueReadThrows entry then .error ()
      else if jsStrictEqStr (entry.getField "value") value then .ok true
      else jsSomeValueEq rest value

/-- `validateOsmTag` of src/services/mistral.ts.  On a successful fetch it
returns `data.data?.some(entry => entry.value === value)`; when `data.data`
is missing the source returns `undefined` and when it is a non-array the
`.some` call throws a `TypeError` caught by the surrounding `try` — both
are observed as a falsy result by the sole caller, so the Boolean embedding
returns `false` for them.  A `TypeError` thrown inside the callback (a
`null` array element, see `jsSomeValueEq`) is caught by the same `try` and
yields `false` for the whole call, as does any network or parse error of
the fetch (`.error` response). -/
def validateOsmTag (key value : String) (resp : Except Unit Json) : Bool :=
  match resp with
  | .error _ => false
  | .ok data =>
      match data.getField "data" with
      | some (.arr entries) =>
          match jsSomeValueEq entries value with
          | .ok b => b
          | .error _ => false
      | _ => false

/-- `mapToOsmTags` of src/services/mistral.ts: ask the model for a single
`{key, value}` tag and keep it only when `validateOsmTag` accepts it; any
failure of the chat call or of `JSON.parse` is caught and yields `null`
(`none`). -/
def mapToOsmTags (term : String) (o : Oracle) : Option OsmTag :=
  match o.mapReply with
  | .error _ => none
  | .ok result =>
      if validateOsmTag result.key result.value (o.registry result.key result.value) then
        some result
      else
        none

/-- The test `parsed.location?.type === 'current'` of `parseSearchQuery`. -/
def locationSaysCurrent (parsed : Json) : Bool :=
  match parsed.getField "location" with
  | some loc =>
      match loc.getField "type" with
      | some (.str s) => s == "current"
      | _ => false
  | none => false

/-- The two mutations `parsed.location.coordinates = userLocation` and
`parsed.location.radius = { value: 5, unit: 'kilometers' }` performed when
the parsed intent says to use the current location. -/
def injectCurrentLocation (parsed : Json) (u : Coordinates) : Json :=
  match parsed.getField "location" with
  | some loc =>
      parsed.setField "location"
        ((loc.setField "coordinates"
            (.obj [("latitude", .num u.latitude), ("longitude", .num u.longitude)])).setField
          "radius" (.obj [("value", .num 5), ("unit", .str "kilometers")]))
  | none => parsed

/-- The `osmTags` property of the fallback object of `parseSearchQuery`:
`await mapToOsmTags(query)`, which is either a bare `{key, value}` object or
`null`. -/
def fallbackOsmTagsJson : Option OsmTag → Json
  | some t => .obj [("key", .str t.key), ("value", .str t.value)]
  | none => .null

/-- The `location` property of the fallback object of `parseSearchQuery`:
present (with injected coordinates and a `{value, unit}` radius object) when
a user location was supplied, `undefined` — i.e. absent — otherwise. -/
def fallbackLocationFields : Option Coordinates → List (String × Json)
  | some u =>
      [("location", .obj
        [("coordinates", .obj [("latitude", .num u.latitude), ("longitude", .num u.longitude)]),
         ("radius", .obj [("value", .num 5), ("unit", .str "kilometers")])])]
  | none => []

/-- The fallback construction in the `catch` block of `parseSearchQuery`:
`ParsedQuerySchema.parse({searchTerm: query, location: ..., osmTags: await
mapToOsmTags(query)})`.  Whatever this parse does — including throwing — is
the result of `parseSearchQuery`, as the `catch` block has no further
handler. -/
def fallbackIntent (query : String) (userLocation : Option Coordinates) (o : Oracle) :
    Except Unit ParsedQuery :=
  ParsedQuerySchema.parse (.obj
    ([("searchTerm", .str query)]
      ++ fallbackLocationFields userLocation
      ++ [("osmTags", fallbackOsmTagsJson (mapToOsmTags query o))]))

/-- `parseSearchQuery` of src/services/mistral.ts.  The `try` branch submits
the query to the model, parses the reply, injects the user position when the
reply asks for the current location, and validates against
`ParsedQuerySchema`; any failure up to there lands in the `catch` branch,
which builds the fallback object. -/
def parseSearchQuery (query : String) (userLocation : Option Coordinates) (o : Oracle) :
    Except Unit ParsedQuery :=
  match o.analysis with
  | .error _ => fallbackIntent query userLocation o
  | .ok parsed =>
      let parsed' :=
        if locationSaysCurrent parsed then
          match userLocation with
          | some u => injectCurrentLocation parsed u
          | none => parsed
        else parsed
      match ParsedQuerySchema.parse parsed' with
      | .ok result => .ok result
      | .error _ => fallbackIntent query userLocation o

/-- The `viewbox` parameter appended by `buildNominatimQuery`, in the
template-literal order `longitude-s, latitude+s, longitude+s, latitude-s`
(the numeric content of the comma-joined string). -/
structure Viewbox where
  left : ℚ
  top : ℚ
  right : ℚ
  bottom : ℚ
deriving DecidableEq

/-- The content of the `URLSearchParams` built by `buildNominatimQuery`:
the `q` term string, the optional `viewbox`/`bounded` pair, and the always
appended `format` and `limit` parameters.  The embedding keeps the numeric
viewbox corners rather than their JS decimal rendering. -/
structure NominatimParams where
  q : String
  viewbox : Option Viewbox
  bounded : Option String
  format : String
  limit : String
deriving DecidableEq

/-- JS property access `parsedQuery.osm_tags?.specific` of
`buildNominatimQuery`.  A schema-validated `ParsedQuery` has the properties
named in `ParsedQuerySchema` only — the tags field is spelled `osmTags`, and
zod strips unknown keys — so `osm_tags` is `undefined` on every value this
function receives and the optional chain yields `undefined`. -/
def osm_tags_specific (parsedQuery : ParsedQuery) : Option OsmTag := none

/-- JS property access `.value` on the `radius` field of a schema-validated
`ParsedQuery`: the schema types `radius` as `z.number()`, and a JS number
has no `value` property, so the access yields `undefined`. -/
def radius_value (radius : ℚ) : Option ℚ := none

/-- JS `x || d` for an optional number `x`: the default is taken when `x` is
`undefined` (and also when it is `0`, `0` being falsy). -/
def jsOrDefault (x : Option ℚ) (d : ℚ) : ℚ :=
  match x with
  | some v => if v = 0 then d else v
  | none => d

/-- JS `searchTerms.join(' ')`. -/
def joinSpace : List String → String
  | [] => ""
  | [s] => s
  | s :: rest => s ++ " " ++ joinSpace rest

/-- `buildNominatimQuery` of src/services/mistral.ts: start the term list
with `searchTerm`, append a bracketed `[key=value]` clause from
`osm_tags?.specific` when that access yields a tag, join the terms with
spaces into `q`; when coordinates are present compute
`viewboxSize = (radius?.value || 5) * 0.02` and append the `viewbox` and
`bounded=1` parameters; always append `format=json` and `limit=10`. -/
def buildNominatimQuery (parsedQuery : ParsedQuery) : NominatimParams :=
  let searchTerms := [parsedQuery.searchTerm]
  let searchTerms :=
    match osm_tags_specific parsedQuery with
    | some t => searchTerms ++ ["[" ++ t.key ++ "=" ++ t.value ++ "]"]
    | none => searchTerms
  let q := joinSpace searchTerms
  match parsedQuery.location with
  | some loc =>
      match loc.coordinates with
      | some c =>
          let radius := jsOrDefault (loc.radius.bind radius_value) 5
          let viewboxSize := radius * 0.02
          { q := q,
            viewbox := some ⟨c.longitude - viewboxSize, c.latitude + viewboxSize,
              c.longitude + viewboxSize, c.latitude - viewboxSize⟩,
            bounded := some "1", format := "json", limit := "10" }
      | none => { q := q, viewbox := none, bounded := none, format := "json", limit := "10" }
  | none => { q := q, viewbox := none, bounded := none, format := "json", limit := "10" }

/-- The observable outcome of one `searchLocations` call: the value returned
(or the exception propagated, as `.error`), and which of the three Nominatim
requests were issued. -/
structure SearchOutcome where
  result : Except Unit (List SearchResult)
  tier1Issued : Bool
  tier2Issued : Bool
  tier3Issued : Bool

/-- `searchLocations` of src/services/mistral.ts.  The `try` block parses
the intent, issues the primary (tier-1) request, throws on a non-ok status,
and on an empty result list issues the plain-term `limit=10` (tier-2)
request, returning its parsed body; any exception inside the `try` —
intent-parsing failure, tier-1 transport/status/body failure, or tier-2
transport/body failure — lands in the `catch`, which issues the plain-term
`limit=3` (tier-3) request and returns its parsed body without further
protection, so a tier-3 failure propagates to the caller. -/
def searchLocations (query : String) (userLocation : Option Coordinates) (o : Oracle) :
    SearchOutcome :=
  match parseSearchQuery query userLocation o with
  | .error _ =>
      { result := o.tier3, tier1Issued := false, tier2Issued := false, tier3Issued := true }
  | .ok parsedQuery =>
      let params := buildNominatimQuery parsedQuery
      match o.tier1 with
      | .error _ =>
          { result := o.tier3, tier1Issued := true, tier2Issued := false, tier3Issued := true }
      | .ok results =>
          if results.length = 0 then
            match o.tier2 with
            | .error _ =>
                { result := o.tier3, tier1Issued := true, tier2Issued := true,
                  tier3Issued := true }
            | .ok fallbackResults =>
                { result := .ok fallbackResults, tier1Issued := true, tier2Issued := true,
                  tier3Issued := false }
          else
            { result := .ok results, tier1Issued := true, tier2Issued := false,
              tier3Issued := false }

/-- The `Location` interface of src/App.tsx (one result as the presentation
layer sees it). -/
structure Location where
  lat : ℝ
  lon : ℝ
  display_name : String

/-- The caller's geographic position (`userPosition.coords`). -/
structure UserPosition where
  latitude : ℝ
  longitude : ℝ

/-- JS `Math.atan2 y x`, the argument of the complex number `x + y*i`
(range `(-π, π]`, `atan2 0 0 = 0`). -/
noncomputable def atan2 (y x : ℝ) : ℝ := Complex.arg ⟨x, y⟩

/-- `calculateDistance` of src/App.tsx: the haversine great-circle distance
with Earth radius 6371 km. -/
noncomputable def calculateDistance (lat1 lon1 lat2 lon2 : ℝ) : ℝ :=
  let R : ℝ := 6371
  let dLat := (lat2 - lat1) * Real.pi / 180
  let dLon := (lon2 - lon1) * Real.pi / 180
  let a :=
    Real.sin (dLat / 2) * Real.sin (dLat / 2) +
      Real.cos (lat1 * Real.pi / 180) * Real.cos (lat2 * Real.pi / 180) *
        Real.sin (dLon / 2) * Real.sin (dLon / 2)
  let c := 2 * atan2 (Real.sqrt a) (Real.sqrt (1 - a))
  R * c

/-- The comparator passed to `results.sort` in `handleSearch`: `a` may come
before `b` iff its `calculateDistance` from the user position is no larger
(the comparator returns `distA - distB`). -/
noncomputable def distLe (p : UserPosition) (a b : Location) : Bool :=
  @decide
    (calculateDistance p.latitude p.longitude a.lat a.lon ≤
      calculateDistance p.latitude p.longitude b.lat b.lon)
    (Classical.propDecidable _)

/-- The result-processing tail of `handleSearch` in src/App.tsx: when a user
position is available sort the full result list by the distance comparator
(JS `Array.prototype.sort` is a stable sort, modelled by `List.mergeSort`),
then truncate with `slice(0, expandedResults ? 10 : 5)`. -/
noncomputable def rankResults (userPosition : Option UserPosition) (expandedResults : Bool)
    (results : List Location) : List Location :=
  let sorted :=
    match userPosition with
    | some p => results.mergeSort (distLe p)
    | none => results
  sorted.take (if expandedResults then 10 else 5)

/-- A registry on which every taginfo fetch fails. -/
def errorRegistry : String → String → Except Unit Json := fun _ _ => .error ()

/-- Environment in which the model call of `parseSearchQuery` and every
other network interaction fail. -/
def oracleModelDown : Oracle :=
  ⟨.error (), .error (), errorRegistry, .error (), .error (), .error ()⟩

/-- A well-formed model reply whose `osmTags` carry a tag the registry does
not know. -/
def unvalidatedTagReply : Json :=
  .obj [("searchTerm", .str "x"),
        ("osmTags", .arr [.obj [("key", .str "foo"), ("value", .str "bar")]])]

/-- Environment in which the model replies with `unvalidatedTagReply` and
the registry rejects everything. -/
def oracleUnvalidatedTag : Oracle :=
  ⟨.ok unvalidatedTagReply, .error (), errorRegistry, .error (), .error (), .error ()⟩

/-- A registry that knows the value `cafe` for every key. -/
def cafeRegistry : String → String → Except Unit Json :=
  fun _ _ => .ok (.obj [("data", .arr [.obj [("value", .str "cafe")]])])

/-- Environment in which the main model call fails but the single-tag
mapping call returns `amenity=cafe`, which the registry confirms. -/
def oracleMapSuccess : Oracle :=
  ⟨.error (), .ok ⟨"amenity", "cafe"⟩, cafeRegistry, .error (), .error (), .error ()⟩

/-- A minimal schema-valid model reply. -/
def minimalReply : Json := .obj [("searchTerm", .str "cafe")]

/-- Environment in which intent parsing succeeds, the tier-1 request
succeeds with zero results, the tier-2 request fails, and the tier-3
request succeeds. -/
def oracleTier2Fails : Oracle :=
  ⟨.ok minimalReply, .error (), errorRegistry, .ok [], .error (), .ok []⟩

/-- Environment in which every network interaction fails, the final
limit-3 request included. -/
def oracleEverythingDown : Oracle :=
  ⟨.error (), .error (), errorRegistry, .error (), .error (), .error ()⟩

/-- Environment in which everything fails except the final limit-3
request, which returns an empty list. -/
def oracleTier3Only : Oracle :=
  ⟨.error (), .error (), errorRegistry, .error (), .error (), .ok []⟩

/-- A schema-valid intent with coordinates (10, 20) and a numeric radius of
10. -/
def radiusTenIntent : ParsedQuery :=
  ⟨"cafe", some ⟨some ⟨10, 20⟩, some 10⟩, none, none⟩

/-- A model reply that declares a "use current location" indicator. -/
def currentLocationReply : Json :=
  .obj [("searchTerm", .str "cafes"), ("location", .obj [("type", .str "current")])]

/-- Environment in which the model replies with `currentLocationReply` and
everything else fails. -/
def oracleCurrentLocation : Oracle :=
  ⟨.ok currentLocationReply, .error (), errorRegistry, .error (), .error (), .error ()⟩

/-- The fallback construction of `parseSearchQuery` always throws: the
object it hands to `ParsedQuerySchema.parse` fails the schema whatever the
inputs — `osmTags` is `null` or a bare `{key, value}` object where the
schema wants an array, and, when a user location is present, `radius` is a
`{value, unit}` object where the schema wants a number. -/
theorem fallbackIntent_eq_error (query : String) (userLocation : Option Coordinates)
    (o : Oracle) : fallbackIntent query userLocation o = .error () := by
  unfold fallbackIntent
  cases mapToOsmTags query o <;> cases userLocation <;> rfl

/-- The distance comparator unfolded to the proposition it decides. -/
theorem distLe_eq_true_iff (p : UserPosition) (a b : Location) :
    distLe p a b = true ↔
      calculateDistance p.latitude p.longitude a.lat a.lon ≤
        calculateDistance p.latitude p.longitude b.lat b.lon := by
  simp [distLe]

/-- The distance comparator is transitive. -/
theorem distLe_trans (p : UserPosition) : ∀ a b c : Location,
    distLe p a b = true → distLe p b c = true → distLe p a c = true := by
  intro a b c hab hbc
  rw [distLe_eq_true_iff] at *
  exact le_trans hab hbc

/-- The distance comparator is total. -/
theorem distLe_total (p : UserPosition) : ∀ a b : Location,
    (distLe p a b || distLe p b a) = true := by
  intro a b
  simp only [Bool.or_eq_true, distLe_eq_true_iff]
  exact le_total _ _

/-- JS strict string equality against a dynamic value, as a proposition. -/
theorem jsStrictEqStr_eq_true_iff (x : Option Json) (v : String) :
    jsStrictEqStr x v = true ↔ x = some (.str v) := by
  cases x with
  | none => simp [jsStrictEqStr]
  | some j => cases j <;> simp [jsStrictEqStr]

/-- On an entry list without `null` elements the callback never throws, and
the error-aware scan agrees with a plain Boolean scan of the `value`
fields. -/
theorem jsSomeValueEq_eq_any (value : String) (entries : List Json)
    (h : Json.null ∉ entries) :
    jsSomeValueEq entries value
      = .ok (entries.any (fun e => jsStrictEqStr (e.getField "value") value)) := by
  induction entries with
  | nil => rfl
  | cons e rest ih =>
      have he : e ≠ Json.null := by
        intro he
        exact h (he ▸ List.mem_cons_self e rest)
      have hrest : Json.null ∉ rest := fun hr => h (List.mem_cons_of_mem e hr)
      have hth : jsValueReadThrows e = false := by
        cases e <;> first | rfl | exact absurd rfl he
      cases hm : jsStrictEqStr (e.getField "value") value with
      | false => simp [jsSomeValueEq, hth, hm, ih hrest]
      | true => simp [jsSomeValueEq, hth, hm]

/-- C1: the claim says that when the language-model call errors (or its
reply is invalid), `parseSearchQuery` does not raise and returns an intent
with `searchTerm` equal to the raw text.  The code instead throws: the
fallback object violates its own schema (`osmTags: null` where
`z.array(...).optional()` rejects `null`, and with a position also
`radius: {value, unit}` where the schema wants `z.number()`), so
`ParsedQuerySchema.parse` throws out of the `catch` block.  Evaluated at the
failing input — query `"coffee shops"`, with and without a user position,
model call failing — `parseSearchQuery` propagates the exception. -/
theorem C1_model_failure_raises :
    parseSearchQuery "coffee shops" none oracleModelDown = .error ()
    ∧ parseSearchQuery "coffee shops" (some ⟨40, -73⟩) oracleModelDown = .error () :=
  ⟨rfl, rfl⟩

/-- C2 is refuted: on the successful model path `parseSearchQuery` returns
the model's `osmTags` without consulting `validateOsmTag`.  Here the
returned intent carries the tag `foo=bar` although the registry validates
no pair at all (`validateOsmTag` yields `false` on it), so an element of
`osmTags` has not passed Tag Vocabulary Validation and was not dropped. -/
theorem C2_unvalidated_tag_counterexample :
    parseSearchQuery "x" none oracleUnvalidatedTag
      = .ok ⟨"x", none, none, some [⟨"foo", "bar"⟩]⟩
    ∧ validateOsmTag "foo" "bar" (oracleUnvalidatedTag.registry "foo" "bar") = false :=
  ⟨rfl, rfl⟩

/-- C2 (amended): tag-vocabulary validation gates only the fallback path's
single-tag mapping: whenever `mapToOsmTags` produces a tag, `validateOsmTag`
returned `true` for that tag's key/value pair against the registry, and a
rejected or unvalidated candidate is dropped (`none`); intents returned on
the successful model path carry the model's `osmTags` unvalidated. -/
theorem C2_mapToOsmTags_gates_on_validation (term : String) (o : Oracle) (t : OsmTag)
    (h : mapToOsmTags term o = some t) :
    validateOsmTag t.key t.value (o.registry t.key t.value) = true := by
  cases hr : o.mapReply with
  | error e => simp [mapToOsmTags, hr] at h
  | ok r =>
      simp only [mapToOsmTags, hr] at h
      split at h
      · rename_i hv
        injection h with he
        subst he
        exact hv
      · exact absurd h (by simp)

/-- C2 witness: a concrete run in which the mapping call returns
`amenity=cafe` and the registry confirms it, so the tag is kept and the
theorem's hypothesis is discharged at it. -/
theorem C2_mapToOsmTags_gates_on_validation_witness :
    validateOsmTag "amenity" "cafe" (oracleMapSuccess.registry "amenity" "cafe") = true :=
  C2_mapToOsmTags_gates_on_validation "cafe" oracleMapSuccess ⟨"amenity", "cafe"⟩ rfl

/-- C4: the claim (exactly one bracketed `key=value` clause from the first
tag of a non-empty `osmTags`) is refuted by the code: the tag branch reads
`parsedQuery.osm_tags?.specific`, a property no schema-validated
`ParsedQuery` has (the schema field is spelled `osmTags`, and zod strips
unknown keys), so no bracket clause is ever appended and `q` is always the
bare search term — in particular on the concrete intent carrying the tag
`amenity=cafe`. -/
theorem C4_tag_clause_never_appended :
    (∀ p : ParsedQuery, (buildNominatimQuery p).q = p.searchTerm)
    ∧ (buildNominatimQuery ⟨"cafe", none, none, some [⟨"amenity", "cafe"⟩]⟩).q = "cafe" := by
  constructor
  · intro p
    obtain ⟨st, lo, fi, ot⟩ := p
    cases lo with
    | none => rfl
    | some loc =>
        obtain ⟨co, ra⟩ := loc
        cases co <;> rfl
  · rfl

/-- C6: the claim says the viewbox half-width is `radius * 0.02` degrees
(radius defaulting to 5).  On the schema-valid intent with `radius = 10` the
code still produces half-width `5 * 0.02 = 0.1`, not `10 * 0.02`, because it
reads `location.radius?.value` on a plain number, which is `undefined`; the
`format=json`, `limit=10` and `bounded=1` parts do hold. -/
theorem C6_viewbox_ignores_radius :
    (buildNominatimQuery radiusTenIntent).viewbox
      = some ⟨20 - 5 * 0.02, 10 + 5 * 0.02, 20 + 5 * 0.02, 10 - 5 * 0.02⟩
    ∧ (5 * 0.02 : ℚ) ≠ 10 * 0.02
    ∧ (buildNominatimQuery radiusTenIntent).bounded = some "1"
    ∧ (buildNominatimQuery radiusTenIntent).format = "json"
    ∧ (buildNominatimQuery radiusTenIntent).limit = "10" := by
  refine ⟨rfl, by norm_num, rfl, rfl, rfl⟩

/-- C9: the claim says that a "use current location" reply with a supplied
position yields an intent with the position injected and a default radius
of 5.  The code injects `radius = {value: 5, unit: 'kilometers'}`, an
object its own schema (`z.number()`) rejects, so the schema parse throws,
the fallback runs and throws too (same schema violations), and
`parseSearchQuery` propagates the exception instead of returning the
intent — evaluated here at query `"cafes near me"`, position (40, -73),
and a model reply declaring `location.type = 'current'`. -/
theorem C9_current_location_injection_raises :
    parseSearchQuery "cafes near me" (some ⟨40, -73⟩) oracleCurrentLocation = .error () :=
  rfl

/-- C10: for every schema-validated intent with coordinates present, the
viewbox half-width is the constant `0.1 = 5 * 0.02` degrees whatever
numeric `radius` the intent stores: the code reads `radius?.value` on a
plain number, the access yields `undefined`, and the default 5 always
applies. -/
theorem C10_viewbox_halfwidth_constant (p : ParsedQuery) (loc : LocationIntent)
    (c : Coordinates) (h1 : p.location = some loc) (h2 : loc.coordinates = some c) :
    (buildNominatimQuery p).viewbox
      = some ⟨c.longitude - 0.1, c.latitude + 0.1, c.longitude + 0.1, c.latitude - 0.1⟩ := by
  have hb : loc.radius.bind radius_value = none := by
    cases loc.radius <;> rfl
  simp only [buildNominatimQuery, h1, h2, hb, jsOrDefault]
  norm_num

/-- C10 witness: on a concrete intent storing `radius = 50` the half-width
is still `0.1`. -/
theorem C10_viewbox_halfwidth_constant_witness :
    (buildNominatimQuery ⟨"bar", some ⟨some ⟨1, 2⟩, some 50⟩, none, none⟩).viewbox
      = some ⟨2 - 0.1, 1 + 0.1, 2 + 0.1, 1 - 0.1⟩ :=
  C10_viewbox_halfwidth_constant _ _ _ rfl rfl

/-- C3 is refuted on its "the limit-3 last-resort tier is invoked
specifically when tier 1 raised an error" part: in this concrete run intent
parsing succeeds, the tier-1 request succeeds with zero results (it raised
no error), the tier-2 request fails, and the `catch` block still issues the
limit-3 tier-3 request. -/
theorem C3_tier3_without_tier1_error :
    (searchLocations "cafe" none oracleTier2Fails).tier3Issued = true
    ∧ oracleTier2Fails.tier1 = .ok [] :=
  ⟨rfl, rfl⟩

/-- C3 (amended): the tier-2 plain-term request is issued exactly when
intent parsing succeeded and the tier-1 request succeeded with zero
results; when tier 1 is empty and tier 2 returns a non-empty (indeed, any)
list, the tier-2 results are what `searchLocations` returns; and the
limit-3 tier-3 request is issued exactly when an exception occurs anywhere
in the primary attempt — intent-parsing failure, tier-1 request failure, or
tier-2 request failure after an empty tier-1 — never on merely-empty
results. -/
theorem C3_fallback_ladder (query : String) (userLocation : Option Coordinates) (o : Oracle) :
    ((searchLocations query userLocation o).tier2Issued = true ↔
      (parseSearchQuery query userLocation o).isOk = true ∧ o.tier1 = .ok [])
    ∧ ((searchLocations query userLocation o).tier3Issued = true ↔
      (parseSearchQuery query userLocation o = .error () ∨
        ((parseSearchQuery query userLocation o).isOk = true ∧
          (o.tier1 = .error () ∨ (o.tier1 = .ok [] ∧ o.tier2 = .error ())))))
    ∧ (∀ l2 : List SearchResult,
        (parseSearchQuery query userLocation o).isOk = true → o.tier1 = .ok [] →
          o.tier2 = .ok l2 → (searchLocations query userLocation o).result = .ok l2)
    ∧ ((parseSearchQuery query userLocation o).isOk = true → o.tier1 = .error () →
        (searchLocations query userLocation o).tier3Issued = true
        ∧ (searchLocations query userLocation o).result = o.tier3) := by
  cases hp : parseSearchQuery query userLocation o with
  | error e =>
      cases e
      refine ⟨?_, ?_, ?_, ?_⟩ <;> simp [searchLocations, hp, Except.isOk, Except.toBool]
  | ok p =>
      cases ho1 : o.tier1 with
      | error e1 =>
          cases e1
          refine ⟨?_, ?_, ?_, ?_⟩ <;> simp [searchLocations, hp, ho1, Except.isOk, Except.toBool]
      | ok l =>
          cases l with
          | nil =>
              cases ho2 : o.tier2 with
              | error e2 =>
                  cases e2
                  refine ⟨?_, ?_, ?_, ?_⟩ <;>
                    simp [searchLocations, hp, ho1, ho2, Except.isOk, Except.toBool]
              | ok l2 =>
                  refine ⟨?_, ?_, ?_, ?_⟩ <;>
                    simp [searchLocations, hp, ho1, ho2, Except.isOk, Except.toBool]
          | cons a as =>
              refine ⟨?_, ?_, ?_, ?_⟩ <;> simp [searchLocations, hp, ho1, Except.isOk, Except.toBool]

/-- C5: with a known position the displayed list is the full candidate list
sorted ascending by the haversine distance (`calculateDistance`, Earth
radius 6371) from the position and only then truncated to the active page
size (5, or 10 once expansion was requested); the sort is stable (any
already-ordered sublist survives into the sorted list, so ties keep their
relative order) and a permutation of the full input; without a position the
provider order is kept. -/
theorem C5_ranking_sorts_then_truncates (results : List Location) (p : UserPosition)
    (expanded : Bool) :
    rankResults none expanded results = results.take (if expanded then 10 else 5)
    ∧ rankResults (some p) expanded results
      = (results.mergeSort (distLe p)).take (if expanded then 10 else 5)
    ∧ List.Pairwise
        (fun a b => calculateDistance p.latitude p.longitude a.lat a.lon ≤
          calculateDistance p.latitude p.longitude b.lat b.lon)
        (results.mergeSort (distLe p))
    ∧ (results.mergeSort (distLe p)).Perm results
    ∧ (∀ c : List Location, List.Pairwise (fun a b => distLe p a b = true) c →
        c.Sublist results → c.Sublist (results.mergeSort (distLe p))) := by
  refine ⟨rfl, rfl, ?_, List.mergeSort_perm results (distLe p), ?_⟩
  · have h := @List.sorted_mergeSort Location (distLe p)
      (distLe_trans p) (distLe_total p) results
    exact h.imp (fun hab => (distLe_eq_true_iff p _ _).mp hab)
  · intro c hc hsub
    exact List.sublist_mergeSort (distLe_trans p) (distLe_total p) hc hsub

/-- C7 is refuted: with every network interaction failing — the model call,
so the intent parse throws and the `catch` of `searchLocations` runs, and
then the final limit-3 fetch itself — `searchLocations` propagates the
exception to its caller instead of returning a list. -/
theorem C7_exception_propagates :
    (searchLocations "coffee" none oracleEverythingDown).result = .error () :=
  rfl

/-- C7 (amended): `searchLocations` returns a list in every run in which
the final limit-3 request succeeds: internal failures (intent parsing,
tier-1, tier-2) degrade to the next tier rather than being thrown outward,
and only a failure of the tier-3 request itself propagates. -/
theorem C7_returns_list_unless_tier3_fails (query : String)
    (userLocation : Option Coordinates) (o : Oracle) (l3 : List SearchResult)
    (h : o.tier3 = .ok l3) :
    ∃ l : List SearchResult, (searchLocations query userLocation o).result = .ok l := by
  cases hp : parseSearchQuery query userLocation o with
  | error e => exact ⟨l3, by simp [searchLocations, hp, h]⟩
  | ok p =>
      cases ho1 : o.tier1 with
      | error e1 => exact ⟨l3, by simp [searchLocations, hp, ho1, h]⟩
      | ok l =>
          cases l with
          | nil =>
              cases ho2 : o.tier2 with
              | error e2 => exact ⟨l3, by simp [searchLocations, hp, ho1, ho2, h]⟩
              | ok l2 => exact ⟨l2, by simp [searchLocations, hp, ho1, ho2]⟩
          | cons a as => exact ⟨a :: as, by simp [searchLocations, hp, ho1]⟩

/-- C7 witness: in the run where everything fails except the limit-3
request, a list is returned. -/
theorem C7_returns_list_unless_tier3_fails_witness :
    ∃ l : List SearchResult, (searchLocations "coffee" none oracleTier3Only).result = .ok l :=
  C7_returns_list_unless_tier3_fails "coffee" none oracleTier3Only [] rfl

/-- C8: on a well-formed registry response — a `data` array without `null`
elements, which is what the entry scan can traverse without its
`entry.value` read throwing — `validateOsmTag` returns `true` iff the
queried value is among the entries' `value` fields (so in particular
`false` for every value not in the list); a response whose array does carry
a `null` entry makes the callback throw a `TypeError` that the `try`
catches to `false` for the whole call, and any network or parse failure of
the fetch likewise yields `false` rather than an exception. -/
theorem C8_validateOsmTag_characterization (key value : String) (entries : List Json)
    (hwf : Json.null ∉ entries) :
    (validateOsmTag key value (.ok (.obj [("data", .arr entries)])) = true
      ↔ ∃ e ∈ entries, e.getField "value" = some (.str value))
    ∧ validateOsmTag key value (.ok (.obj [("data", .arr (Json.null :: entries))])) = false
    ∧ validateOsmTag key value (.error ()) = false := by
  refine ⟨?_, rfl, rfl⟩
  · simp [validateOsmTag, Json.getField, jsSomeValueEq_eq_any value entries hwf,
      List.any_eq_true, jsStrictEqStr_eq_true_iff]

/-- C8 witness: a concrete well-formed registry response listing the value
`restaurant`, on which validation succeeds. -/
theorem C8_validateOsmTag_characterization_witness :
    validateOsmTag "amenity" "restaurant"
      (.ok (.obj [("data", .arr [.obj [("value", .str "restaurant")]])])) = true :=
  (C8_validateOsmTag_characterization "amenity" "restaurant"
      [.obj [("value", .str "restaurant")]] (by simp)).1.mpr
    ⟨.obj [("value", .str "restaurant")], by simp, rfl⟩
